import Mathlib

/-!
Shallow embedding of the credential and token-safety core of the `vent`
event-management application (`src/event_app/utils.py`, `src/event_app/models.py`),
with theorems settling the specification claims about it.
-/

namespace EventApp

/-! ## Character classification (`PasswordRules.UPPERCASE/LOWERCASE/DIGITS`, `count_characters`) -/

/-- The `PasswordRules.UPPERCASE` set from `utils.py`. -/
def UPPERCASE : List Char :=
  ['A', 'B', 'C', 'D', 'E', 'F', 'G', 'H',
   'I', 'J', 'K', 'L', 'M', 'N', 'O', 'P',
   'Q', 'R', 'S', 'T', 'U', 'V', 'W', 'X',
   'Y', 'Z']

/-- The `PasswordRules.LOWERCASE` set from `utils.py`. -/
def LOWERCASE : List Char :=
  ['a', 'b', 'c', 'd', 'e', 'f', 'g', 'h',
   'i', 'j', 'k', 'l', 'm', 'n', 'o', 'p',
   'q', 'r', 's', 't', 'u', 'v', 'w', 'x',
   'y', 'z']

/-- The `PasswordRules.DIGITS` set from `utils.py`. -/
def DIGITS : List Char :=
  ['0', '1', '2', '3', '4', '5', '6', '7',
   '8', '9']

/-- The four-bucket counter built by `PasswordRules.count_characters`. -/
structure CharCounts where
  uppercase : Nat
  lowercase : Nat
  digits : Nat
  special : Nat
deriving Repr, DecidableEq

/-- One iteration of the `for char in password` loop in `count_characters`:
the if/elif/elif/else chain classifying a character into exactly one bucket. -/
def classify (counter : CharCounts) (c : Char) : CharCounts :=
  if UPPERCASE.contains c then
    { counter with uppercase := counter.uppercase + 1 }
  else if LOWERCASE.contains c then
    { counter with lowercase := counter.lowercase + 1 }
  else if DIGITS.contains c then
    { counter with digits := counter.digits + 1 }
  else
    { counter with special := counter.special + 1 }

/-- `PasswordRules.count_characters`: a fold of `classify` over the password,
starting from the all-zero counter. -/
def count_characters (password : String) : CharCounts :=
  password.toList.foldl classify ⟨0, 0, 0, 0⟩

/-! ## Password policy (`PasswordRules.__init__`, `PasswordRules.validate`) -/

/-- A constructed `PasswordRules` object: the four optional class minimums and
the length.  `length : Option Int` models the Python value which is `int` by
default (10) but may be explicitly passed as `None`. -/
structure PasswordRules where
  uppercase : Option Int
  lowercase : Option Int
  digits : Option Int
  special : Option Int
  length : Option Int
deriving Repr, DecidableEq

/-- The lambda `a = lambda x: 0 if x is None else x` in `PasswordRules.__init__`. -/
def orZero (x : Option Int) : Int := x.getD 0

/-- `PasswordRules.__init__`: raises `ValueError` (modelled as `Except.error`)
when `length` is not `None` and the sum of the minimums (with `None` treated
as 0) exceeds `length`; otherwise stores the five fields. -/
def PasswordRules.make (u l d s : Option Int) (len : Option Int) :
    Except String PasswordRules :=
  match len with
  | some L =>
    if orZero u + orZero l + orZero d + orZero s > L then
      Except.error "Length must be >= sum of requirements"
    else
      Except.ok ⟨u, l, d, s, some L⟩
  | none => Except.ok ⟨u, l, d, s, none⟩

/-- Message appended for a deficient class minimum, e.g.
`"Need at least 2 uppercase characters"`: `clazz` is the class word of the
format string (with its leading space), and the trailing `'s'` is present
exactly when the minimum is not 1, as in `'s' if self.uppercase != 1 else ''`. -/
def needMsg (n : Int) (clazz : String) : String :=
  "Need at least " ++ toString n ++ clazz ++ (if n ≠ 1 then "s" else "")

/-- One `if self.<class> is not None and (self.<class> > char_count[...])` block
of `PasswordRules.validate`. -/
def classErrors (minReq : Option Int) (count : Nat) (clazz : String) : List String :=
  match minReq with
  | some n => if n > (count : Int) then [needMsg n clazz] else []
  | none => []

/-- The length message `"Password must be at least {} characters"`. -/
def lengthMsg (n : Int) : String :=
  "Password must be at least " ++ toString n ++ " characters"

/-- `PasswordRules.validate` (with the default `raise_error=False` path):
builds the error list in the fixed order uppercase, lowercase, digits, special,
length.  The final check compares `self.length > len(password)`; when
`self.length` is `None` that Python comparison raises `TypeError`, modelled
here as `none`. -/
def PasswordRules.validate (p : PasswordRules) (password : String) :
    Option (List String) :=
  let cc := count_characters password
  let errors :=
    classErrors p.uppercase cc.uppercase " uppercase character" ++
    classErrors p.lowercase cc.lowercase " lowercase character" ++
    classErrors p.digits cc.digits " digit" ++
    classErrors p.special cc.special " special character"
  match p.length with
  | some L =>
    some (errors ++ (if L > (password.length : Int) then [lengthMsg L] else []))
  | none => none

/-! ## Safe redirect validation (`is_safe_url` in `utils.py`)

`is_safe_url` calls `urllib.parse.urlparse` and `urllib.parse.urljoin` and then
inspects only the `scheme` and `netloc` of the results, so the model below
tracks exactly those two components of a parsed URL, following CPython's
`urlsplit`/`urljoin`. -/

/-- The scheme and network location of a parsed URL: the only components
`is_safe_url` inspects. -/
structure UrlParts where
  scheme : String
  netloc : String
deriving Repr, DecidableEq

/-- CPython `urllib.parse.scheme_chars`: letters, digits and `+`, `-`, `.`. -/
def scheme_chars (c : Char) : Bool :=
  c.isAlphanum || c == '+' || c == '-' || c == '.'

/-- The characters before the first `:` form a scheme when the first is an
ASCII letter and all are scheme characters (CPython `urlsplit`). -/
def isValidScheme : List Char → Bool
  | [] => false
  | c :: rest => c.isAlpha && rest.all scheme_chars

/-- The scheme-splitting step of CPython `urlsplit(url, scheme=default)`: if a
`:` preceded by a valid non-empty scheme occurs, the lowercased scheme and the
remainder; otherwise the default scheme and the whole input. -/
def splitScheme (cs : List Char) (defaultScheme : String) : String × List Char :=
  let before := cs.takeWhile (fun c => c ≠ ':')
  if before.length < cs.length && isValidScheme before then
    (String.mk (before.map Char.toLower), cs.drop (before.length + 1))
  else
    (defaultScheme, cs)

/-- The netloc-splitting step of CPython `urlsplit`: when the rest starts with
`//`, the netloc runs until the next `/`, `?` or `#`. -/
def splitNetloc (cs : List Char) : String :=
  match cs with
  | '/' :: '/' :: rest =>
    String.mk (rest.takeWhile (fun c => c ≠ '/' && c ≠ '?' && c ≠ '#'))
  | _ => ""

/-- `urllib.parse.urlparse(url, defaultScheme)` restricted to the scheme and
netloc components. -/
def urlparseSN (url : String) (defaultScheme : String) : UrlParts :=
  let p := splitScheme url.toList defaultScheme
  ⟨p.1, splitNetloc p.2⟩

/-- CPython `urllib.parse.uses_relative`. -/
def uses_relative : List String :=
  ["", "ftp", "http", "gopher", "nntp", "imap", "wais", "file", "https",
   "shttp", "mms", "prospero", "rtsp", "rtspu", "sftp", "svn", "svn+ssh",
   "ws", "wss"]

/-- CPython `urllib.parse.uses_netloc`. -/
def uses_netloc : List String :=
  ["", "ftp", "http", "gopher", "nntp", "telnet", "imap", "wais", "file",
   "mms", "https", "shttp", "snews", "prospero", "rtsp", "rtspu", "rsync",
   "svn", "svn+ssh", "sftp", "nfs", "git", "git+ssh", "ws", "wss"]

/-- `urllib.parse.urljoin(base, url)` restricted to the scheme and netloc of
the result, following CPython: an empty argument yields the other one; a url
whose scheme (defaulted to the base's) differs from the base's or is not in
`uses_relative` is returned as given; otherwise a url carrying its own netloc
keeps it, and a url without one inherits the base's netloc. -/
def urljoinSN (base url : String) : UrlParts :=
  if base = "" then urlparseSN url ""
  else if url = "" then urlparseSN base ""
  else
    let b := urlparseSN base ""
    let u := urlparseSN url b.scheme
    if u.scheme ≠ b.scheme || !(uses_relative.contains u.scheme) then
      urlparseSN url ""
    else if uses_netloc.contains u.scheme then
      if u.netloc ≠ "" then u else ⟨u.scheme, b.netloc⟩
    else u

/-- `is_safe_url` from `utils.py`, with the request's `host_url` passed
explicitly: parse the origin, resolve the target against it, and accept iff
the resolved scheme is `http` or `https` and the netlocs coincide. -/
def is_safe_url (host_url target : String) : Bool :=
  let ref_url := urlparseSN host_url ""
  let test_url := urljoinSN host_url target
  (test_url.scheme == "http" || test_url.scheme == "https") &&
    ref_url.netloc == test_url.netloc

/-! ## Unique token generation (`Event.generate_id` in `models.py`) -/

/-- `Event.id = Column(db.String(10), ...)`: the configured identifier length. -/
def event_id_length : Nat := 10

/-- Python `string.ascii_letters`: lowercase then uppercase. -/
def ascii_letters : List Char :=
  "abcdefghijklmnopqrstuvwxyzABCDEFGHIJKLMNOPQRSTUVWXYZ".toList

/-- Python `string.digits`. -/
def string_digits : List Char := "0123456789".toList

/-- The draw alphabet `string.ascii_letters + string.digits` (62 symbols). -/
def id_alphabet : List Char := ascii_letters ++ string_digits

/-- One `random.choice(string.ascii_letters + string.digits)`: the randomness
source is modelled as a stream `r` of naturals, each draw indexing the
alphabet. -/
def randomChoice (r : Nat → Nat) (i : Nat) : Char :=
  id_alphabet.getD (r i % id_alphabet.length) 'a'

/-- One candidate `''.join(random.choice(...) for x in range(length))` drawn
on attempt number `attempt`. -/
def draw_candidate (r : Nat → Nat) (attempt len : Nat) : String :=
  String.mk ((List.range len).map fun j => randomChoice r (attempt * len + j))

/-- The `while True` loop of `Event.generate_id`, with the database lookup
abstracted as the predicate `ex` (`ex c = true` iff `Event.query.get(c)` is
not `None`).  The loop itself is unbounded; `fuel` bounds how many iterations
are examined, `none` meaning the loop has not returned within that budget. -/
def generate_id_loop (ex : String → Bool) (r : Nat → Nat)
    (len attempt fuel : Nat) : Option String :=
  match fuel with
  | 0 => none
  | fuel' + 1 =>
    let temp_id := draw_candidate r attempt len
    if ex temp_id then generate_id_loop ex r len (attempt + 1) fuel'
    else some temp_id

/-! ## Credential hashing (`User.password` setter, `User.check_password`) -/

/-- The slice of a `User` row the credential logic touches: the per-user
`salt` and the stored `_password` digest (of abstract type `H`). -/
structure UserCred (H : Type) where
  salt : String
  _password : H
deriving Repr, DecidableEq

/-- The external `flask_bcrypt` primitive, abstracted by its two operations. -/
structure BcryptLib (H : Type) where
  generate_password_hash : String → H
  check_password_hash : H → String → Bool

/-- The bcrypt primitive satisfies its round-trip contract: verifying a
freshly produced hash against the same input succeeds. -/
def BcryptRoundTrip {H : Type} (bc : BcryptLib H) : Prop :=
  ∀ s, bc.check_password_hash (bc.generate_password_hash s) s = true

/-- The `User.password` setter: concatenates the plaintext with the stored
salt (salt appended after the plaintext) and hashes the combination.  There is
no length check: the primitive is called on inputs of any length. -/
def password_setter {H : Type} (bc : BcryptLib H) (u : UserCred H)
    (plain_password : String) : UserCred H :=
  ⟨u.salt, bc.generate_password_hash (plain_password ++ u.salt)⟩

/-- `User.check_password`: recomputes the salted concatenation and asks the
primitive to verify it against the stored digest. -/
def check_password {H : Type} (bc : BcryptLib H) (u : UserCred H)
    (plain_password : String) : Bool :=
  bc.check_password_hash u._password (plain_password ++ u.salt)

/-- A concrete instantiation of the primitive used to witness the credential
theorems: hashes are the inputs themselves and verification is equality. -/
def idBcrypt : BcryptLib String :=
  ⟨fun s => s, fun h s => h == s⟩

/-- A 100-character plaintext, exceeding bcrypt's 72-byte input bound once the
32-character salt is appended. -/
def longPassword : String := String.mk (List.replicate 100 'a')

/-! ## Helper lemmas -/

/-- Total count held by a `CharCounts`. -/
def sumCC (c : CharCounts) : Nat :=
  c.uppercase + c.lowercase + c.digits + c.special

lemma sumCC_classify (acc : CharCounts) (c : Char) :
    sumCC (classify acc c) = sumCC acc + 1 := by
  unfold classify sumCC
  split
  · simp; omega
  · split
    · simp; omega
    · split
      · simp; omega
      · simp; omega

lemma sumCC_foldl (l : List Char) :
    ∀ acc : CharCounts, sumCC (l.foldl classify acc) = sumCC acc + l.length := by
  induction l with
  | nil => intro acc; simp
  | cons c l ih =>
    intro acc
    simp only [List.foldl_cons, List.length_cons, ih, sumCC_classify]
    omega

lemma classErrors_none (count : Nat) (clazz : String) :
    classErrors none count clazz = [] := rfl

lemma classErrors_nonpos (n : Int) (count : Nat) (clazz : String) (h : n ≤ 0) :
    classErrors (some n) count clazz = [] := by
  simp only [classErrors]
  rw [if_neg]
  omega

/-! ## Theorems settling the claims -/

/-- C8: `count_characters` classifies every character into exactly one of the
four buckets, so the four counts always sum to the password's length, and the
empty password yields all-zero counts. -/
theorem count_characters_partitions :
    (∀ password : String,
      (count_characters password).uppercase + (count_characters password).lowercase +
        (count_characters password).digits + (count_characters password).special
        = password.length) ∧
    count_characters "" = ⟨0, 0, 0, 0⟩ := by
  constructor
  · intro password
    have h := sumCC_foldl password.toList ⟨0, 0, 0, 0⟩
    unfold sumCC at h
    simpa [count_characters] using h
  · rfl

/-- C2: for every password and every policy whose length is an `int`,
`validate` returns exactly the deficiency messages in the fixed order
uppercase, lowercase, digit, special, length; each class message is present
iff the configured minimum strictly exceeds the observed count, with the
trailing `s` omitted exactly when the minimum is 1, and the length message is
present iff the password is shorter than the minimum length; in particular
`"ab"` under minUppercase=1, minDigits=1, minLength=10 yields exactly the
three expected messages. -/
theorem validate_message_order :
    (∀ (p : PasswordRules) (pw : String) (L : Int), p.length = some L →
      p.validate pw = some (
        (match p.uppercase with
         | some n => if n > ((count_characters pw).uppercase : Int) then
             ["Need at least " ++ toString n ++ " uppercase character" ++
               (if n ≠ 1 then "s" else "")] else []
         | none => []) ++
        (match p.lowercase with
         | some n => if n > ((count_characters pw).lowercase : Int) then
             ["Need at least " ++ toString n ++ " lowercase character" ++
               (if n ≠ 1 then "s" else "")] else []
         | none => []) ++
        (match p.digits with
         | some n => if n > ((count_characters pw).digits : Int) then
             ["Need at least " ++ toString n ++ " digit" ++
               (if n ≠ 1 then "s" else "")] else []
         | none => []) ++
        (match p.special with
         | some n => if n > ((count_characters pw).special : Int) then
             ["Need at least " ++ toString n ++ " special character" ++
               (if n ≠ 1 then "s" else "")] else []
         | none => []) ++
        (if L > (pw.length : Int) then
           ["Password must be at least " ++ toString L ++ " characters"]
         else []))) ∧
    PasswordRules.validate ⟨some 1, none, some 1, none, some 10⟩ "ab" =
      some ["Need at least 1 uppercase character", "Need at least 1 digit",
            "Password must be at least 10 characters"] := by
  constructor
  · rintro ⟨u, l, d, s, len⟩ pw L h
    cases h
    cases u <;> cases l <;> cases d <;> cases s <;>
      simp [PasswordRules.validate, classErrors, needMsg, lengthMsg]
  · rfl

/-- C2 witness: the order theorem applied at the concrete policy and password
from the claim. -/
theorem validate_message_order_witness :
    PasswordRules.validate ⟨some 1, none, some 1, none, some 10⟩ "ab" =
      some ["Need at least 1 uppercase character", "Need at least 1 digit",
            "Password must be at least 10 characters"] := by
  have h := validate_message_order.1 ⟨some 1, none, some 1, none, some 10⟩ "ab" 10 rfl
  simpa using h

/-- C3 counterexample: the claim says that with the length floor disabled by
`length=0` the sum-check is skipped and construction always succeeds, but the
code only skips the check when `length is None`: constructing with
uppercase=5, digits=5, length=0 raises `ValueError`. -/
theorem make_length_zero_still_checks :
    PasswordRules.make (some 5) none (some 5) none (some 0) =
      Except.error "Length must be >= sum of requirements" := rfl

/-- C3 amended: construction raises iff `length` is not `None` and the sum of
the non-null class minimums (None read as 0) exceeds it; only `length=None`
skips the sum-check, and minUppercase=5, minDigits=5, minLength=8 is a
construction error. -/
theorem make_error_iff :
    (∀ u l d s (L : Int), orZero u + orZero l + orZero d + orZero s ≤ L →
        PasswordRules.make u l d s (some L) = Except.ok ⟨u, l, d, s, some L⟩) ∧
    (∀ u l d s (L : Int), orZero u + orZero l + orZero d + orZero s > L →
        PasswordRules.make u l d s (some L) =
          Except.error "Length must be >= sum of requirements") ∧
    (∀ u l d s, PasswordRules.make u l d s none = Except.ok ⟨u, l, d, s, none⟩) ∧
    PasswordRules.make (some 5) none (some 5) none (some 8) =
      Except.error "Length must be >= sum of requirements" := by
  refine ⟨fun u l d s L h => ?_, fun u l d s L h => ?_, fun u l d s => rfl, rfl⟩
  · simp only [PasswordRules.make]
    rw [if_neg]
    omega
  · simp only [PasswordRules.make]
    rw [if_pos h]

/-- C3 witness: the amended construction theorem applied at a policy whose
minimums sum below its length. -/
theorem make_error_iff_witness :
    PasswordRules.make (some 2) none none none (some 10) =
      Except.ok ⟨some 2, none, none, none, some 10⟩ :=
  make_error_iff.1 (some 2) none none none 10 (by decide)

/-- C9: with all four class minimums unset, a policy with `length=0` accepts
every password (empty list of errors), but a policy with `length=None` does
not return at all: `validate` reaches `self.length > len(password)` and that
comparison of `None` with an `int` raises `TypeError` (modelled as `none`),
where the claim expected the empty list. -/
theorem validate_disabled_length :
    (∀ pw, PasswordRules.validate ⟨none, none, none, none, some 0⟩ pw = some []) ∧
    (∀ pw, PasswordRules.validate ⟨none, none, none, none, none⟩ pw = none) := by
  constructor
  · intro pw
    have h : ¬ ((0 : Int) > (pw.length : Int)) := by omega
    simp [PasswordRules.validate, classErrors, h]
  · intro pw
    rfl

/-- C10: construction never checks that a class minimum is non-negative (only
the sum-check against the length applies, over arbitrary integers), and a
class whose configured minimum is ≤ 0 contributes no deficiency message: its
`validate` behaviour is identical to leaving that class unset. -/
theorem nonpositive_minimums_no_message :
    (∀ u l d s (L : Int), orZero u + orZero l + orZero d + orZero s ≤ L →
        PasswordRules.make u l d s (some L) = Except.ok ⟨u, l, d, s, some L⟩) ∧
    (∀ l d s len pw (n : Int), n ≤ 0 →
        PasswordRules.validate ⟨some n, l, d, s, len⟩ pw =
          PasswordRules.validate ⟨none, l, d, s, len⟩ pw) ∧
    (∀ u d s len pw (n : Int), n ≤ 0 →
        PasswordRules.validate ⟨u, some n, d, s, len⟩ pw =
          PasswordRules.validate ⟨u, none, d, s, len⟩ pw) ∧
    (∀ u l s len pw (n : Int), n ≤ 0 →
        PasswordRules.validate ⟨u, l, some n, s, len⟩ pw =
          PasswordRules.validate ⟨u, l, none, s, len⟩ pw) ∧
    (∀ u l d len pw (n : Int), n ≤ 0 →
        PasswordRules.validate ⟨u, l, d, some n, len⟩ pw =
          PasswordRules.validate ⟨u, l, d, none, len⟩ pw) := by
  refine ⟨fun u l d s L h => ?_,
          fun l d s len pw n h => ?_,
          fun u d s len pw n h => ?_,
          fun u l s len pw n h => ?_,
          fun u l d len pw n h => ?_⟩
  · simp only [PasswordRules.make]
    rw [if_neg]
    omega
  all_goals
    simp [PasswordRules.validate, classErrors_nonpos _ _ _ h, classErrors_none]

/-- C10 witness: the theorem applied with a negative uppercase minimum under a
zero length. -/
theorem nonpositive_minimums_no_message_witness :
    PasswordRules.validate ⟨some (-1), none, none, none, some 0⟩ "" =
      PasswordRules.validate ⟨none, none, none, none, some 0⟩ "" :=
  nonpositive_minimums_no_message.2.1 none none none (some 0) "" (-1) (by decide)

/-- C1: `is_safe_url` accepts a target iff the URL obtained by resolving it
against the request origin has scheme `http` or `https` and its netloc equals
the origin's netloc; in particular, against origin `https://app.example`, an
absolute URL on another host and a `javascript:` URL are rejected while a
same-origin relative path is accepted. -/
theorem is_safe_url_spec :
    (∀ host_url target, is_safe_url host_url target = true ↔
      ((urljoinSN host_url target).scheme = "http" ∨
        (urljoinSN host_url target).scheme = "https") ∧
      (urlparseSN host_url "").netloc = (urljoinSN host_url target).netloc) ∧
    is_safe_url "https://app.example" "https://evil.example/x" = false ∧
    is_safe_url "https://app.example" "/event/abc123" = true ∧
    is_safe_url "https://app.example" "javascript:alert(1)" = false := by
  refine ⟨fun host_url target => ?_, rfl, rfl, rfl⟩
  simp [is_safe_url, Bool.and_eq_true, Bool.or_eq_true, beq_iff_eq]

/-- C4: whenever the `generate_id` loop returns an identifier, it is a string
of exactly the configured length 10 made only of ASCII letters and digits, and
the existence check reported `None` for it (the exists predicate is false on
the returned candidate). -/
theorem generate_id_sound :
    ∀ (ex : String → Bool) (r : Nat → Nat) (attempt fuel : Nat) (s : String),
      generate_id_loop ex r event_id_length attempt fuel = some s →
      s.length = event_id_length ∧ s.toList.all Char.isAlphanum = true ∧
        ex s = false := by
  have halpha : ∀ c ∈ id_alphabet, c.isAlphanum = true := by decide
  have hchoice : ∀ (r : Nat → Nat) (i : Nat), randomChoice r i ∈ id_alphabet := by
    intro r i
    unfold randomChoice
    have hk : r i % id_alphabet.length < id_alphabet.length :=
      Nat.mod_lt _ (by decide)
    rw [List.getD_eq_getElem _ _ hk]
    exact List.getElem_mem hk
  intro ex r attempt fuel
  induction fuel generalizing attempt with
  | zero => intro s h; exact absurd h (by simp [generate_id_loop])
  | succ fuel ih =>
    intro s h
    rw [generate_id_loop] at h
    by_cases hex : ex (draw_candidate r attempt event_id_length) = true
    · rw [if_pos hex] at h
      exact ih (attempt + 1) s h
    · rw [if_neg hex] at h
      cases h
      refine ⟨by simp [draw_candidate], ?_, by simpa using hex⟩
      rw [List.all_eq_true]
      intro c hc
      simp only [draw_candidate, String.toList, List.mem_map] at hc
      obtain ⟨j, _, rfl⟩ := hc
      exact halpha _ (hchoice r _)

/-- C4 witness: the soundness theorem applied to a run in which the predicate
reports every candidate free and the index stream is constantly zero, which
returns `"aaaaaaaaaa"` on the first attempt. -/
theorem generate_id_sound_witness :
    ("aaaaaaaaaa" : String).length = event_id_length ∧
      ("aaaaaaaaaa" : String).toList.all Char.isAlphanum = true ∧
      (fun _ : String => false) "aaaaaaaaaa" = false :=
  generate_id_sound (fun _ => false) (fun _ => 0) 0 1 "aaaaaaaaaa" (by decide)

/-- C5: the `while True` loop in `Event.generate_id` has no retry ceiling:
when the exists predicate is true on every candidate, the loop has not
returned after any finite number of iterations — it loops forever instead of
raising a `GenerationExhausted` error. -/
theorem generate_id_all_exists_never_returns :
    ∀ (r : Nat → Nat) (len attempt fuel : Nat),
      generate_id_loop (fun _ => true) r len attempt fuel = none := by
  intro r len attempt fuel
  induction fuel generalizing attempt with
  | zero => rfl
  | succ fuel ih => simpa [generate_id_loop] using ih (attempt + 1)

/-- C6: verification succeeds on a hash just produced: whenever the bcrypt
primitive satisfies its round-trip contract, `check_password` returns true on
the plaintext that was stored through the `password` setter, because both
sides build the same salted concatenation `plaintext ++ salt`. -/
theorem check_password_after_set :
    ∀ {H : Type} (bc : BcryptLib H), BcryptRoundTrip bc →
      ∀ (u : UserCred H) (plain : String),
        check_password bc (password_setter bc u plain) plain = true := by
  intro H bc hbc u plain
  exact hbc (plain ++ u.salt)

/-- C6 witness: the theorem applied to the concrete identity/equality
primitive, a fixed salt and the plaintext `"hunter2"`. -/
theorem check_password_after_set_witness :
    check_password idBcrypt (password_setter idBcrypt ⟨"somesalt", "old"⟩ "hunter2")
      "hunter2" = true :=
  check_password_after_set idBcrypt (fun s => beq_self_eq_true s)
    ⟨"somesalt", "old"⟩ "hunter2"

/-- C7: the `password` setter performs no length check: for every plaintext —
including a 100-character one whose salted concatenation far exceeds bcrypt's
72-byte input bound — it unconditionally calls the hashing primitive and
returns a stored credential; no `InputTooLong` error path exists in the code. -/
theorem password_setter_no_length_check :
    (∀ (H : Type) (bc : BcryptLib H) (u : UserCred H) (plain : String),
        password_setter bc u plain =
          ⟨u.salt, bc.generate_password_hash (plain ++ u.salt)⟩) ∧
    password_setter idBcrypt ⟨"0123456789abcdef0123456789abcdef", "stored"⟩
        longPassword =
      ⟨"0123456789abcdef0123456789abcdef",
        longPassword ++ "0123456789abcdef0123456789abcdef"⟩ ∧
    longPassword.length = 100 := by
  exact ⟨fun H bc u plain => rfl, rfl, by decide⟩

end EventApp
